import Mathlib

/-!
Verification of the guarded transaction-signing subsystem of the
1claw-examples repository. The definitions below are a shallow embedding of
the TypeScript sources, principally
`tx-simulation/src/app/api/chat/route.ts`,
`tx-simulation/src/lib/oneclaw.ts`, and
`ampersend-x402/src/resolve-buyer-key.ts`, together with a spec-modelled
guardrail evaluator and orchestrator for the server-side components that are
not part of the repository source tree.
-/

namespace OneClaw

/-- Substring test over character lists (embeds the semantics of JS
`String.prototype.includes` used via `msg.includes("403")` etc.). -/
def containsSub : List Char → List Char → Bool
  | [], pat => pat.isEmpty
  | c :: cs, pat => pat.isPrefixOf (c :: cs) || containsSub cs pat

/-- JS `s.includes(pat)` on Lean strings. -/
def strContains (s pat : String) : Bool :=
  containsSub s.data pat.data

/-- JS `s.toLowerCase()` (ASCII, as used on token symbols). -/
def toLowerStr (s : String) : String :=
  ⟨s.data.map Char.toLower⟩

/-- JS `s.toUpperCase()` (ASCII, as used on token symbols). -/
def toUpperStr (s : String) : String :=
  ⟨s.data.map Char.toUpper⟩

/-- JS `s.startsWith(pat)`. -/
def startsWithStr (s pat : String) : Bool :=
  pat.data.isPrefixOf s.data

/-- JS `a || b` on possibly-undefined strings: the left operand wins unless it
is `undefined` or the empty string (falsy). -/
def jsOrOpt (a b : Option String) : Option String :=
  match a with
  | some s => if s = "" then b else some s
  | none => b

/-- JS `a || d` where `d` is a definitely-present string. -/
def jsOrD (a : Option String) (d : String) : String :=
  match a with
  | some s => if s = "" then d else s
  | none => d

/-- Message of the error thrown by `apiCall` in `oneclaw.ts` when the HTTP
response is not ok: `data.detail || data.message || `API error ${res.status}``. -/
def apiErrorMessage (status : Nat) (detail message : Option String) : String :=
  jsOrD detail (jsOrD message ("API error " ++ toString status))

/-- The `AgentInfo` record returned by `getAgentInfo` in `oneclaw.ts`.
The declared interface carries `crypto_proxy_enabled`; the route handler also
reads an `intents_api_enabled` member off the parsed JSON, so it is modelled
as an optional field of the runtime object. -/
structure AgentInfo where
  id : String
  name : String
  crypto_proxy_enabled : Bool
  intents_api_enabled : Option Bool
  tx_to_allowlist : Option (List String)
  tx_max_value_eth : Option String
  tx_daily_limit_eth : Option String
  tx_allowed_chains : Option (List String)
deriving DecidableEq

/-- One entry of `balance_changes` in the `SimulationResult` of `oneclaw.ts`. -/
structure BalanceChange where
  address : String
  token : Option String
  before : Option String
  after : Option String
  change : Option String
deriving DecidableEq

/-- The `SimulationResult` record of `oneclaw.ts` (the parsed response of
`POST /v1/agents/{id}/transactions/simulate`). -/
structure SimulationResult where
  simulation_id : String
  status : String
  gas_used : Nat
  gas_estimate_usd : Option String
  balance_changes : List BalanceChange
  error : Option String
  revert_reason : Option String
  tenderly_dashboard_url : Option String
deriving DecidableEq

/-- The `TransactionResult` record of `oneclaw.ts` (the parsed response of
`POST /v1/agents/{id}/transactions`). -/
structure TransactionResult where
  id : String
  agent_id : String
  chain : String
  chain_id : Nat
  «to» : String
  value_wei : String
  status : String
  signed_tx : Option String
  tx_hash : Option String
  error_message : Option String
  created_at : String
  signed_at : Option String
  simulation_status : Option String
  tenderly_dashboard_url : Option String
deriving DecidableEq

/-- The parameters of `submitTransaction` in `oneclaw.ts` — exactly the JSON
body posted to the transactions API. `value` is kept as a decimal string. -/
structure SubmitParams where
  «to» : String
  value : String
  chain : String
  data : Option String
  simulate_first : Option Bool
deriving DecidableEq

/-- An HTTP request issued by `apiCall` in `oneclaw.ts`: method, path, body. -/
structure ApiRequest where
  method : String
  path : String
  body : Option SubmitParams
deriving DecidableEq

/-- The request constructed by `submitTransaction` in `oneclaw.ts`:
`apiCall("POST", `/v1/agents/${AGENT_ID}/transactions`, params)`. -/
def submitTransactionRequest (agentId : String) (params : SubmitParams) : ApiRequest :=
  { method := "POST"
    path := "/v1/agents/" ++ agentId ++ "/transactions"
    body := some params }

/-- The `CHAIN_EXPLORER` table of `route.ts`. -/
def CHAIN_EXPLORER : List (String × String) :=
  [("base", "https://basescan.org"),
   ("ethereum", "https://etherscan.io"),
   ("sepolia", "https://sepolia.etherscan.io"),
   ("base-sepolia", "https://sepolia.basescan.org"),
   ("optimism", "https://optimistic.etherscan.io"),
   ("arbitrum", "https://arbiscan.io")]

/-- The expression `CHAIN_EXPLORER[chain] || CHAIN_EXPLORER.base` of the
`submit_transaction` tool: per-chain explorer base with fallback to base. -/
def chainExplorer (chain : String) : String :=
  match CHAIN_EXPLORER.lookup chain with
  | some e => e
  | none => "https://basescan.org"

/-- The expression `tx.tx_hash ? `${explorer}/tx/${tx.tx_hash}` : undefined`
of the `submit_transaction` tool (JS truthiness: an absent or empty hash
yields `undefined`). -/
def explorerUrl (chain : String) (txHash : Option String) : Option String :=
  match txHash with
  | some h => if h = "" then none else some (chainExplorer chain ++ "/tx/" ++ h)
  | none => none

/-- The input of the `submit_transaction` tool in `route.ts`. -/
structure SubmitInput where
  «to» : String
  value : String
  chain : String
  data : Option String
  simulate_first : Bool
deriving DecidableEq

/-- The `transaction` object of a successful `submit_transaction` result. -/
structure OkTransaction where
  id : String
  chain : String
  chain_id : Nat
  «to» : String
  value_wei : String
  tx_status : String
  tx_hash : Option String
  explorer_url : Option String
  simulation_status : Option String
  tenderly_dashboard_url : Option String
  signed_at : Option String
deriving DecidableEq

/-- The value returned by the `submit_transaction` tool: a JSON object with a
`status` discriminator and the fields each branch populates. -/
structure SubmitResult where
  status : String
  transaction : Option OkTransaction
  reason : Option String
  chain : Option String
  «to» : Option String
  value : Option String
deriving DecidableEq

/-- The `params` object built by the `submit_transaction` tool and handed to
`submitTransaction` — field-for-field from the tool input. -/
def submitToolParams (inp : SubmitInput) : SubmitParams :=
  { «to» := inp.«to»
    value := inp.value
    chain := inp.chain
    data := inp.data
    simulate_first := some inp.simulate_first }

/-- The `execute` body of the `submit_transaction` tool in `route.ts`. The
outcome of the awaited `submitTransaction` call is an `Except`: `.ok` a parsed
`TransactionResult`, `.error` the message of the thrown exception (as produced
by `apiCall`, see `apiErrorMessage`). The `catch` branch classifies the
message: blocked iff it contains `"403"` or `"denied"`. -/
def submit_transaction_execute (inp : SubmitInput)
    (outcome : Except String TransactionResult) : SubmitResult :=
  match outcome with
  | .ok tx =>
      { status := "ok"
        transaction := some
          { id := tx.id
            chain := tx.chain
            chain_id := tx.chain_id
            «to» := tx.«to»
            value_wei := tx.value_wei
            tx_status := tx.status
            tx_hash := tx.tx_hash
            explorer_url := explorerUrl inp.chain tx.tx_hash
            simulation_status := tx.simulation_status
            tenderly_dashboard_url := tx.tenderly_dashboard_url
            signed_at := tx.signed_at }
        reason := none
        chain := none
        «to» := none
        value := none }
  | .error msg =>
      let blocked := strContains msg "403" || strContains msg "denied"
      { status := if blocked then "blocked" else "error"
        transaction := none
        reason := some (if blocked then
            "Transaction rejected by guardrails. The signing proxy refused to sign this transaction because it violates the agent's configured restrictions."
          else msg)
        chain := some inp.chain
        «to» := some inp.«to»
        value := some inp.value }

/-- Input of the `simulate_transaction` tool in `route.ts`. -/
structure SimInput where
  «to» : String
  value : String
  chain : String
  data : Option String
deriving DecidableEq

/-- The `simulation` object of a successful `simulate_transaction` result. -/
structure SimPayload where
  result : String
  gas_used : Nat
  gas_cost_usd : Option String
  balance_changes : List BalanceChange
  error : Option String
  revert_reason : Option String
  tenderly_url : Option String
deriving DecidableEq

/-- The value returned by the `simulate_transaction` tool. -/
structure SimToolResult where
  status : String
  simulation : Option SimPayload
  reason : Option String
  chain : Option String
  «to» : Option String
  value : Option String
deriving DecidableEq

/-- The `execute` body of the `simulate_transaction` tool in `route.ts`: a
successful `simulateTransaction` call is wrapped into a `status:"ok"` object
whose `error` field is `sim.error || sim.revert_reason`; a thrown error whose
message contains `"403"` or `"denied"` yields `status:"blocked"` with a fixed
reason, otherwise `status:"error"` with the message. -/
def simulate_transaction_execute (inp : SimInput)
    (outcome : Except String SimulationResult) : SimToolResult :=
  match outcome with
  | .ok sim =>
      { status := "ok"
        simulation := some
          { result := sim.status
            gas_used := sim.gas_used
            gas_cost_usd := sim.gas_estimate_usd
            balance_changes := sim.balance_changes
            error := jsOrOpt sim.error sim.revert_reason
            revert_reason := sim.revert_reason
            tenderly_url := sim.tenderly_dashboard_url }
        reason := none
        chain := none
        «to» := none
        value := none }
  | .error msg =>
      let blocked := strContains msg "403" || strContains msg "denied"
      { status := if blocked then "blocked" else "error"
        simulation := none
        reason := some (if blocked then
            "Guardrail violation — transaction rejected before simulation."
          else msg)
        chain := some inp.chain
        «to» := some inp.«to»
        value := some inp.value }

/-- The `guardrails` object built by the `check_guardrails` tool. -/
structure GuardrailsView where
  intents_api_enabled : Option Bool
  allowed_chains : List String
  allowed_destinations : List String
  max_value_per_tx_eth : String
  daily_spend_limit_eth : String
deriving DecidableEq

/-- The value returned by the `check_guardrails` tool. -/
structure CheckGuardrailsResult where
  status : String
  guardrails : Option GuardrailsView
  error : Option String
deriving DecidableEq

/-- The `execute` body of the `check_guardrails` tool in `route.ts`: reads the
agent info and reports the guardrail snapshot, defaulting absent lists with
`?? []` and absent limits with `?? "unlimited"`. -/
def check_guardrails_execute (outcome : Except String AgentInfo) :
    CheckGuardrailsResult :=
  match outcome with
  | .ok info =>
      { status := "ok"
        guardrails := some
          { intents_api_enabled := info.intents_api_enabled
            allowed_chains := info.tx_allowed_chains.getD []
            allowed_destinations := info.tx_to_allowlist.getD []
            max_value_per_tx_eth := info.tx_max_value_eth.getD "unlimited"
            daily_spend_limit_eth := info.tx_daily_limit_eth.getD "unlimited" }
        error := none }
  | .error e =>
      { status := "error", guardrails := none, error := some e }

/-- One entry of the `KNOWN_TOKENS` registry in `route.ts`. -/
structure TokenInfo where
  address : String
  decimals : Nat
deriving DecidableEq

/-- The `KNOWN_TOKENS` registry of `route.ts`, chain → token symbol → info. -/
def KNOWN_TOKENS : List (String × List (String × TokenInfo)) :=
  [("base",
    [("usdc", ⟨"0x833589fCD6eDb6E08f4c7C32D4f71b54bdA02913", 6⟩),
     ("dai", ⟨"0x50c5725949A6F0c72E6C4a641F24049A917DB0Cb", 18⟩),
     ("weth", ⟨"0x4200000000000000000000000000000000000006", 18⟩),
     ("usdt", ⟨"0xfde4C96c8593536E31F229EA8f37b2ADa2699bb2", 6⟩)]),
   ("ethereum",
    [("usdc", ⟨"0xA0b86991c6218b36c1d19D4a2e9Eb0cE3606eB48", 6⟩),
     ("usdt", ⟨"0xdAC17F958D2ee523a2206206994597C13D831ec7", 6⟩),
     ("dai", ⟨"0x6B175474E89094C44Da98b954EedeAC495271d0F", 18⟩),
     ("weth", ⟨"0xC02aaA39b223FE8D0A0e5C4F27eAD9083C756Cc2", 18⟩)])]

/-- The value returned by the `encode_token_transfer` tool. -/
structure EncodeResult where
  status : String
  error : Option String
  token_contract : Option String
  token_symbol : Option String
  decimals : Option Nat
  recipient : Option String
  amount : Option String
  calldata : Option String
  instructions : Option String
deriving DecidableEq

/-- The `execute` body of the `encode_token_transfer` tool in `route.ts`.
The viem library functions are parameters of the embedding: `isAddr` models
`isAddress`, `parseUnitsFn` models `parseUnits` (throwing ↦ `.error`), and
`encodeData` models `encodeFunctionData` on the ERC-20 `transfer` ABI applied
to the recipient and the parsed amount (throwing ↦ `.error`); a throw from
either is caught and prefixed with `Failed to encode transfer: `. -/
def encode_token_transfer_execute (isAddr : String → Bool)
    (parseUnitsFn : String → Nat → Except String Int)
    (encodeData : String → Int → Except String String)
    (token toAddr amount chain : String) : EncodeResult :=
  let tokenKey := toLowerStr token
  match KNOWN_TOKENS.lookup chain with
  | none =>
      { status := "error"
        error := some ("No token registry for chain: " ++ chain ++
          ". Supported chains: " ++
          String.intercalate ", " (KNOWN_TOKENS.map (fun p => p.1)))
        token_contract := none, token_symbol := none, decimals := none
        recipient := none, amount := none, calldata := none
        instructions := none }
  | some chainTokens =>
      match chainTokens.lookup tokenKey with
      | none =>
          { status := "error"
            error := some ("Unknown token: " ++ token ++ " on " ++ chain ++
              ". Supported: " ++
              String.intercalate ", " (chainTokens.map (fun p => p.1)))
            token_contract := none, token_symbol := none, decimals := none
            recipient := none, amount := none, calldata := none
            instructions := none }
      | some tokenInfo =>
          if isAddr toAddr = false then
            { status := "error"
              error := some ("Invalid recipient address: " ++ toAddr ++
                ". Must be a 0x-prefixed address.")
              token_contract := none, token_symbol := none, decimals := none
              recipient := none, amount := none, calldata := none
              instructions := none }
          else
            match (parseUnitsFn amount tokenInfo.decimals).bind
                (fun w => encodeData toAddr w) with
            | .error e =>
                { status := "error"
                  error := some ("Failed to encode transfer: " ++ e)
                  token_contract := none, token_symbol := none, decimals := none
                  recipient := none, amount := none, calldata := none
                  instructions := none }
            | .ok data =>
                { status := "ok"
                  error := none
                  token_contract := some tokenInfo.address
                  token_symbol := some (toUpperStr token)
                  decimals := some tokenInfo.decimals
                  recipient := some toAddr
                  amount := some amount
                  calldata := some data
                  instructions := some
                    ("To execute this token transfer, call submit_transaction with: to=\"" ++
                      tokenInfo.address ++ "\", value=\"0\", chain=\"" ++ chain ++
                      "\", data=\"" ++ data ++ "\"") }

/-- The vault response consumed by `resolveBuyerKey` in
`ampersend-x402/src/resolve-buyer-key.ts`: `res.error?.message` and
`res.data?.value` of `sdk.secrets.get`. -/
structure SecretResp where
  error : Option String
  value : Option String
deriving DecidableEq

/-- Outcome of `resolveBuyerKey`: either the resolved key, or `process.exit(1)`. -/
inductive ResolveOutcome where
  | ok (key : String)
  | exit1
deriving DecidableEq

/-- The check `!(!value || !value.startsWith("0x"))` of `resolveBuyerKey`:
the fetched value is present, non-empty and `0x`-prefixed. -/
def looksLikeKey : Option String → Bool
  | some v => v ≠ "" && startsWithStr v "0x"
  | none => false

/-- The vault branch of `resolveBuyerKey`: `BUYER_KEY_PATH ?? default`,
fetch, the two error paths (each calling `process.exit(1)`), the success
path. The second component collects every `console.log`/`console.error`
line in order. -/
def resolveFromVault (envKeyPath : Option String) (vaultId : String)
    (fetch : String → SecretResp) : ResolveOutcome × List String :=
  let keyPath := envKeyPath.getD "keys/x402-session-key"
  let fetchLog :=
    "[bootstrap] BUYER_PRIVATE_KEY not set — fetching from 1Claw vault at \"" ++
      keyPath ++ "\""
  let res := fetch keyPath
  match res.error with
  | some errMsg =>
      (.exit1,
       [fetchLog,
        "[bootstrap] Failed to fetch buyer key from 1Claw: " ++ errMsg,
        "[bootstrap] Either set BUYER_PRIVATE_KEY in your .env, or store your session key at \"" ++
          keyPath ++ "\" in vault " ++ vaultId])
  | none =>
      if looksLikeKey res.value then
        (.ok (res.value.getD ""),
         [fetchLog,
          "[bootstrap] Buyer key fetched from 1Claw (path: " ++ keyPath ++ ")"])
      else
        (.exit1,
         [fetchLog,
          "[bootstrap] Secret at \"" ++ keyPath ++
            "\" does not look like a private key (must start with 0x)"])

/-- The body of `resolveBuyerKey`: when `BUYER_PRIVATE_KEY` is set (truthy),
log a fixed line and return it; otherwise fall through to the vault branch. -/
def resolveBuyerKey (envKey envKeyPath : Option String) (vaultId : String)
    (fetch : String → SecretResp) : ResolveOutcome × List String :=
  match envKey with
  | some k =>
      if k ≠ "" then
        (.ok k, ["[bootstrap] Using BUYER_PRIVATE_KEY from environment"])
      else resolveFromVault envKeyPath vaultId fetch
  | none => resolveFromVault envKeyPath vaultId fetch

/-- JS truthiness of the `BUYER_PRIVATE_KEY` environment variable. -/
def envTruthy : Option String → Bool
  | some k => k ≠ ""
  | none => false

/-- Shape of a vault response visible in the log stream of `resolveBuyerKey`:
the error message (logged verbatim on the error path) and whether the value
passes the `0x`-shape check that selects between the last two paths. The
value itself is not part of the shape. -/
def secretShape (r : SecretResp) : Option String × Bool :=
  (r.error, looksLikeKey r.value)

/-- Modelled from the spec: the `GuardrailPolicy` snapshot of §3 — the
server-side policy object is not part of the repository source tree.
Amounts are exact rationals (decimal strings compared numerically);
`none` on a limit means the limit is not configured. -/
structure GuardrailPolicy where
  allowedChains : List String
  allowedDestinations : List String
  maxValuePerTx : Option ℚ
  dailySpendLimit : Option ℚ
deriving DecidableEq

/-- Modelled from the spec: the `TransactionIntent` of §3 as seen by the
server-side orchestrator, with the value already parsed to an exact amount. -/
structure SpecIntent where
  destination : String
  value : ℚ
  chain : String
  data : Option String
  simulateFirst : Bool
deriving DecidableEq

/-- Result of guardrail evaluation: `Allow | Deny(reason)` (§4.1). -/
inductive EvalResult where
  | allow
  | deny (reason : String)
deriving DecidableEq

/-- Modelled from the spec: `evaluate(intent, policy, recentSpend)` of §4.1 —
the server-side evaluation function is not part of the repository source
tree. The four rules run in order, first failure wins; empty lists and
unconfigured limits impose no restriction. -/
def evaluate (intent : SpecIntent) (policy : GuardrailPolicy)
    (recentSpend : ℚ) : EvalResult :=
  if ¬ policy.allowedChains.isEmpty ∧ intent.chain ∉ policy.allowedChains then
    .deny "chain not permitted"
  else if ¬ policy.allowedDestinations.isEmpty ∧
      intent.destination ∉ policy.allowedDestinations then
    .deny "destination not permitted"
  else if (match policy.maxValuePerTx with
           | some m => decide (m < intent.value)
           | none => false) then
    .deny "per-transaction limit exceeded"
  else if (match policy.dailySpendLimit with
           | some d => decide (d < recentSpend + intent.value)
           | none => false) then
    .deny "daily limit exceeded"
  else .allow

/-- A side-effecting component of the signing pipeline, recorded in the
invocation trace of the orchestrator. -/
inductive Component where
  | keyResolver
  | signer
deriving DecidableEq

/-- Terminal outcome of one orchestrator run up to signing (§4.6). -/
inductive OrchOutcome where
  | blocked (reason : String)
  | errored (kind : String)
  | signed (signedTx : String)
deriving DecidableEq

/-- Modelled from the spec: the Transaction Orchestrator pipeline of §4.6 up
to the signing step — the server-side orchestrator is not part of the
repository source tree. Guardrails are evaluated first; only on `Allow` is
the Key Resolver consulted (`KeyNotFound` when the identity/chain pair has no
key) and then the Signer. The second component is the trace of invoked
components. -/
def orchestrate (intent : SpecIntent) (policy : GuardrailPolicy)
    (recentSpend : ℚ) (identity : String)
    (resolveKey : String → String → Option String)
    (signTx : String → SpecIntent → Option String) :
    OrchOutcome × List Component :=
  match evaluate intent policy recentSpend with
  | .deny r => (.blocked r, [])
  | .allow =>
      match resolveKey identity intent.chain with
      | none => (.errored "KeyNotFound", [.keyResolver])
      | some handle =>
          match signTx handle intent with
          | none => (.errored "SigningError", [.keyResolver, .signer])
          | some s => (.signed s, [.keyResolver, .signer])

/-- Scenario 1 of §8 of the spec: base-only policy, no destination list,
0.001 per-transaction cap, 0.005 daily cap. -/
def scenarioPolicy : GuardrailPolicy :=
  { allowedChains := ["base"]
    allowedDestinations := []
    maxValuePerTx := some (1 / 1000)
    dailySpendLimit := some (5 / 1000) }

/-- Scenario 1 of §8 of the spec: an intent on a chain the policy does not
permit. -/
def offChainIntent : SpecIntent :=
  { destination := "0x0000000000000000000000000000000000000001"
    value := 1 / 10000
    chain := "ethereum"
    data := none
    simulateFirst := false }

/-- A sample `submit_transaction` tool input. -/
def sampleSubmitInput : SubmitInput :=
  { «to» := "0x000000000000000000000000000000000000dEaD"
    value := "0.0001"
    chain := "base"
    data := none
    simulate_first := false }

/-- A sample `simulate_transaction` tool input. -/
def sampleSimInput : SimInput :=
  { «to» := "0x000000000000000000000000000000000000dEaD"
    value := "0.001"
    chain := "base"
    data := none }

/-- A sample reverted simulation response, as in scenario 4 of §8. -/
def revertedSim : SimulationResult :=
  { simulation_id := "sim-1"
    status := "reverted"
    gas_used := 21000
    gas_estimate_usd := some "0.02"
    balance_changes := []
    error := none
    revert_reason := some "insufficient balance"
    tenderly_dashboard_url := some "https://dashboard.tenderly.co/shared/simulation/1" }

/-- A sample successful transaction response carrying a hash. -/
def sampleTxResult : TransactionResult :=
  { id := "tx-1"
    agent_id := "agent-1"
    chain := "base"
    chain_id := 8453
    «to» := "0x000000000000000000000000000000000000dEaD"
    value_wei := "100000000000000"
    status := "broadcast"
    signed_tx := none
    tx_hash := some "0xdeadbeef"
    error_message := none
    created_at := "2025-01-01T00:00:00Z"
    signed_at := some "2025-01-01T00:00:01Z"
    simulation_status := none
    tenderly_dashboard_url := none }

/-- A sample agent-info response with `intents_api_enabled = true` and no
guardrail fields configured. -/
def sampleInfoEnabled : AgentInfo :=
  { id := "agent-1"
    name := "demo"
    crypto_proxy_enabled := true
    intents_api_enabled := some true
    tx_to_allowlist := none
    tx_max_value_eth := none
    tx_daily_limit_eth := none
    tx_allowed_chains := none }

/-- The same agent-info response with `intents_api_enabled = false`;
identical on every `tx_*` guardrail field. -/
def sampleInfoDisabled : AgentInfo :=
  { sampleInfoEnabled with intents_api_enabled := some false }

/-- A concrete address check accepting exactly the burn address, standing in
for viem `isAddress` in witnesses. -/
def burnAddrOnly : String → Bool :=
  fun s => s == "0x000000000000000000000000000000000000dEaD"

/-- A concrete unit parser accepting exactly "10" at 6 decimals, standing in
for viem `parseUnits` in witnesses. -/
def tenUsdcUnits : String → Nat → Except String Int :=
  fun a d => if a = "10" ∧ d = 6 then .ok 10000000 else .error "invalid decimal"

/-- A concrete calldata builder, standing in for viem `encodeFunctionData`
in witnesses. -/
def transferCalldata : String → Int → Except String String :=
  fun _ w => .ok ("0xa9059cbb" ++ toString w)

/-- C1: for every transaction intent on which guardrail evaluation returns
`Deny`, the orchestrator reaches the terminal blocked state, its invocation
trace is empty — the Key Resolver and the Signer are never invoked and no
key is ever touched. -/
theorem no_sign_on_deny (intent : SpecIntent) (policy : GuardrailPolicy)
    (recentSpend : ℚ) (identity : String)
    (resolveKey : String → String → Option String)
    (signTx : String → SpecIntent → Option String) (r : String)
    (h : evaluate intent policy recentSpend = .deny r) :
    orchestrate intent policy recentSpend identity resolveKey signTx =
      (.blocked r, []) := by
  unfold orchestrate
  rw [h]

/-- Witness for C1: the chain-mismatch scenario of §8 is denied, and the
orchestrator blocks it with an empty invocation trace even when a key and a
signer are available. -/
theorem no_sign_on_deny_witness :
    orchestrate offChainIntent scenarioPolicy 0 "agent-1"
      (fun _ _ => some "key-handle") (fun _ _ => some "0xsigned") =
      (.blocked "chain not permitted", []) :=
  no_sign_on_deny offChainIntent scenarioPolicy 0 "agent-1"
    (fun _ _ => some "key-handle") (fun _ _ => some "0xsigned")
    "chain not permitted" (by decide)

/-- C2: the `submit_transaction` tool always returns a result object whose
`status` is exactly one of `"ok"`, `"blocked"`, `"error"`; the `"ok"` branch
is exactly the one carrying a transaction object, and every thrown adapter
error is wrapped into a status with a human-readable `reason` rather than
propagated. -/
theorem submit_transaction_total_taxonomy (inp : SubmitInput)
    (outcome : Except String TransactionResult) :
    ((submit_transaction_execute inp outcome).status = "ok" ∨
     (submit_transaction_execute inp outcome).status = "blocked" ∨
     (submit_transaction_execute inp outcome).status = "error") ∧
    ((submit_transaction_execute inp outcome).status = "ok" ↔
      (submit_transaction_execute inp outcome).transaction.isSome) ∧
    (∀ msg, outcome = .error msg →
      (submit_transaction_execute inp outcome).status ≠ "ok" ∧
      (submit_transaction_execute inp outcome).reason.isSome) := by
  cases outcome with
  | ok tx => simp [submit_transaction_execute]
  | error msg =>
      cases hb : (strContains msg "403" || strContains msg "denied") <;>
        simp [submit_transaction_execute, hb]

/-- Witness for C2: a concrete adapter failure is wrapped into a non-ok
status with a reason present. -/
theorem submit_transaction_total_taxonomy_witness :
    (submit_transaction_execute sampleSubmitInput
      (.error "fetch failed: ECONNREFUSED")).status ≠ "ok" ∧
    (submit_transaction_execute sampleSubmitInput
      (.error "fetch failed: ECONNREFUSED")).reason.isSome :=
  (submit_transaction_total_taxonomy sampleSubmitInput
      (.error "fetch failed: ECONNREFUSED")).2.2
    "fetch failed: ECONNREFUSED" rfl

/-- C8: the `submit_transaction` tool forwards `to`, `value`, `chain`,
`data` and `simulate_first` verbatim as the body of the POST to the
transactions API, with `value` carried as the same decimal string
throughout. -/
theorem submit_forwards_intent_verbatim (agentId : String) (inp : SubmitInput) :
    (submitTransactionRequest agentId (submitToolParams inp)).body = some
      { «to» := inp.«to», value := inp.value, chain := inp.chain,
        data := inp.data, simulate_first := some inp.simulate_first } ∧
    (submitToolParams inp).value = inp.value ∧
    (submitTransactionRequest agentId (submitToolParams inp)).method = "POST" ∧
    (submitTransactionRequest agentId (submitToolParams inp)).path =
      "/v1/agents/" ++ agentId ++ "/transactions" :=
  ⟨rfl, rfl, rfl, rfl⟩

/-- C3: a failing `submit_transaction` call whose error message carries
neither `"403"` nor `"denied"` — a configuration error such as KeyNotFound —
is surfaced with `status:"error"`, never `status:"blocked"`, while a
guardrail denial (message containing `"denied"`) is surfaced with
`status:"blocked"`, so the two are always distinguishable. -/
theorem config_error_vs_guardrail_denial (inp : SubmitInput)
    (kmsg dmsg : String)
    (h403 : strContains kmsg "403" = false)
    (hden : strContains kmsg "denied" = false)
    (hg : strContains dmsg "denied" = true) :
    (submit_transaction_execute inp (.error kmsg)).status = "error" ∧
    (submit_transaction_execute inp (.error kmsg)).status ≠ "blocked" ∧
    (submit_transaction_execute inp (.error dmsg)).status = "blocked" := by
  simp [submit_transaction_execute, h403, hden, hg]

/-- Witness for C3: a concrete key-not-found message is surfaced as an
error, while a concrete guardrail-denial message is surfaced as blocked. -/
theorem config_error_vs_guardrail_denial_witness :
    (submit_transaction_execute sampleSubmitInput
      (.error "No signing key provisioned for this agent on chain base")).status =
        "error" ∧
    (submit_transaction_execute sampleSubmitInput
      (.error "Transaction denied by guardrails: chain not permitted")).status =
        "blocked" :=
  ⟨(config_error_vs_guardrail_denial sampleSubmitInput
      "No signing key provisioned for this agent on chain base"
      "Transaction denied by guardrails: chain not permitted"
      (by decide) (by decide) (by decide)).1,
   (config_error_vs_guardrail_denial sampleSubmitInput
      "No signing key provisioned for this agent on chain base"
      "Transaction denied by guardrails: chain not permitted"
      (by decide) (by decide) (by decide)).2.2⟩

/-- C4: whenever the simulation service responds, the `simulate_transaction`
tool returns `status:"ok"` carrying the simulation outcome; in particular a
reverted simulation still yields an ok result with the revert reason and the
dashboard link, not an error or a failed record. -/
theorem simulation_reverted_is_ok (inp : SimInput) (sim : SimulationResult)
    (hrev : sim.status = "reverted") :
    (simulate_transaction_execute inp (.ok sim)).status = "ok" ∧
    ∃ p, (simulate_transaction_execute inp (.ok sim)).simulation = some p ∧
      p.result = "reverted" ∧
      p.revert_reason = sim.revert_reason ∧
      p.tenderly_url = sim.tenderly_dashboard_url := by
  refine ⟨rfl, ⟨_, rfl, ?_, rfl, rfl⟩⟩
  simpa [simulate_transaction_execute] using hrev

/-- Witness for C4: scenario 4 of §8 — a reverted simulation with an
insufficient-balance reason comes back as an ok result. -/
theorem simulation_reverted_is_ok_witness :
    (simulate_transaction_execute sampleSimInput (.ok revertedSim)).status = "ok" :=
  (simulation_reverted_is_ok sampleSimInput revertedSim rfl).1

/-- C5: an ok `submit_transaction` result carrying a non-empty transaction
hash reports the explorer URL as the per-chain explorer base followed by
`/tx/` and the hash; a result with no hash reports no explorer URL. -/
theorem submit_explorer_url_format (inp : SubmitInput)
    (tx : TransactionResult) (base h : String)
    (hc : CHAIN_EXPLORER.lookup inp.chain = some base)
    (hh : tx.tx_hash = some h) (hne : h ≠ "") :
    (∃ t, (submit_transaction_execute inp (.ok tx)).transaction = some t ∧
      t.explorer_url = some (base ++ "/tx/" ++ h)) ∧
    (∀ tx2 : TransactionResult, tx2.tx_hash = none →
      ∀ t2, (submit_transaction_execute inp (.ok tx2)).transaction = some t2 →
        t2.explorer_url = none) := by
  constructor
  · refine ⟨_, rfl, ?_⟩
    simp [submit_transaction_execute, explorerUrl, hh, hne, chainExplorer, hc]
  · intro tx2 h2 t2 ht2
    simp only [submit_transaction_execute, Option.some.injEq] at ht2
    subst ht2
    simp [explorerUrl, h2]

/-- Witness for C5: a broadcast transaction on base with hash `0xdeadbeef`
reports `https://basescan.org/tx/0xdeadbeef`. -/
theorem submit_explorer_url_format_witness :
    ∃ t, (submit_transaction_execute sampleSubmitInput (.ok sampleTxResult)).transaction =
        some t ∧
      t.explorer_url = some ("https://basescan.org" ++ "/tx/" ++ "0xdeadbeef") :=
  (submit_explorer_url_format sampleSubmitInput sampleTxResult
    "https://basescan.org" "0xdeadbeef" (by decide) rfl (by decide)).1

/-- C6 counterexample: the guardrail snapshot returned by `check_guardrails`
is not just the four claimed fields — two agent-info responses identical on
all four guardrail fields produce different snapshots, because the snapshot
also carries `intents_api_enabled`. -/
theorem check_guardrails_fifth_field :
    (check_guardrails_execute (.ok sampleInfoEnabled)).guardrails ≠
      (check_guardrails_execute (.ok sampleInfoDisabled)).guardrails ∧
    sampleInfoEnabled.tx_allowed_chains = sampleInfoDisabled.tx_allowed_chains ∧
    sampleInfoEnabled.tx_to_allowlist = sampleInfoDisabled.tx_to_allowlist ∧
    sampleInfoEnabled.tx_max_value_eth = sampleInfoDisabled.tx_max_value_eth ∧
    sampleInfoEnabled.tx_daily_limit_eth = sampleInfoDisabled.tx_daily_limit_eth := by
  decide

/-- C6 (amended): on success `check_guardrails` returns `status:"ok"` and a
guardrail snapshot of five fields — `intents_api_enabled` together with
allowed chains, allowed destinations, max value per transaction in ETH and
daily spend limit in ETH — where an unset list is reported as the empty
array and an unset limit as `"unlimited"`. -/
theorem check_guardrails_snapshot (info : AgentInfo) :
    (check_guardrails_execute (.ok info)).status = "ok" ∧
    ∃ g, (check_guardrails_execute (.ok info)).guardrails = some g ∧
      g.intents_api_enabled = info.intents_api_enabled ∧
      g.allowed_chains = info.tx_allowed_chains.getD [] ∧
      g.allowed_destinations = info.tx_to_allowlist.getD [] ∧
      g.max_value_per_tx_eth = info.tx_max_value_eth.getD "unlimited" ∧
      g.daily_spend_limit_eth = info.tx_daily_limit_eth.getD "unlimited" :=
  ⟨rfl, _, rfl, rfl, rfl, rfl, rfl, rfl⟩

/-- C10: a thrown `simulate_transaction` error whose message contains
`"403"` or `"denied"` yields `status:"blocked"` with the fixed
guardrail-violation reason; any other thrown error yields `status:"error"`
with the message as the reason; both carry the chain, destination and value
of the attempted intent. -/
theorem simulate_blocked_classification (inp : SimInput) (msg : String) :
    ((strContains msg "403" || strContains msg "denied") = true →
      (simulate_transaction_execute inp (.error msg)).status = "blocked" ∧
      (simulate_transaction_execute inp (.error msg)).reason =
        some "Guardrail violation — transaction rejected before simulation.") ∧
    ((strContains msg "403" || strContains msg "denied") = false →
      (simulate_transaction_execute inp (.error msg)).status = "error" ∧
      (simulate_transaction_execute inp (.error msg)).reason = some msg) ∧
    (simulate_transaction_execute inp (.error msg)).chain = some inp.chain ∧
    (simulate_transaction_execute inp (.error msg)).«to» = some inp.«to» ∧
    (simulate_transaction_execute inp (.error msg)).value = some inp.value := by
  cases hb : (strContains msg "403" || strContains msg "denied") <;>
    simp [simulate_transaction_execute, hb]

/-- Witness for C10: a concrete 403 rejection of a simulation is reported as
blocked with the fixed guardrail-violation reason. -/
theorem simulate_blocked_classification_witness :
    (simulate_transaction_execute sampleSimInput (.error "API error 403")).status =
      "blocked" :=
  ((simulate_blocked_classification sampleSimInput "API error 403").1 (by decide)).1

/-- Helper for C7: the log stream of the vault branch is determined by the
key path, the vault id, and the shape of the vault response (error message
and validity of the value) — never by the key bytes themselves. -/
theorem resolveFromVault_logs_eq (envKeyPath : Option String) (vaultId : String)
    (f1 f2 : String → SecretResp)
    (hf : ∀ p, secretShape (f1 p) = secretShape (f2 p)) :
    (resolveFromVault envKeyPath vaultId f1).2 =
      (resolveFromVault envKeyPath vaultId f2).2 := by
  unfold resolveFromVault
  have h := hf (envKeyPath.getD "keys/x402-session-key")
  unfold secretShape at h
  have herr : (f1 (envKeyPath.getD "keys/x402-session-key")).error =
      (f2 (envKeyPath.getD "keys/x402-session-key")).error :=
    congrArg Prod.fst h
  have hval : looksLikeKey (f1 (envKeyPath.getD "keys/x402-session-key")).value =
      looksLikeKey (f2 (envKeyPath.getD "keys/x402-session-key")).value :=
    congrArg Prod.snd h
  cases he1 : (f1 (envKeyPath.getD "keys/x402-session-key")).error with
  | some e =>
      rw [he1] at herr
      simp [he1, ← herr]
  | none =>
      rw [he1] at herr
      cases hv1 : looksLikeKey (f1 (envKeyPath.getD "keys/x402-session-key")).value with
      | true => simp [he1, ← herr, hv1, ← hval]
      | false => simp [he1, ← herr, hv1, ← hval]

/-- C7: resolved key material never reaches the console — on every execution
path of `resolveBuyerKey` the log stream is identical for any two runs that
differ only in the private-key bytes (same env truthiness, same key path,
same vault id, same response shape); the logs can therefore carry at most
the storage path and fixed text, never the key value. -/
theorem resolve_buyer_key_logs_independent_of_key
    (k1 k2 envKeyPath : Option String) (vaultId : String)
    (f1 f2 : String → SecretResp)
    (hk : envTruthy k1 = envTruthy k2)
    (hf : ∀ p, secretShape (f1 p) = secretShape (f2 p)) :
    (resolveBuyerKey k1 envKeyPath vaultId f1).2 =
      (resolveBuyerKey k2 envKeyPath vaultId f2).2 := by
  unfold resolveBuyerKey
  cases k1 with
  | none =>
      cases k2 with
      | none => exact resolveFromVault_logs_eq envKeyPath vaultId f1 f2 hf
      | some b =>
          by_cases hb : b = ""
          · simp only [hb, ne_eq, not_true_eq_false, if_false, ite_false]
            exact resolveFromVault_logs_eq envKeyPath vaultId f1 f2 hf
          · simp [envTruthy, hb] at hk
  | some a =>
      by_cases ha : a = ""
      · cases k2 with
        | none =>
            simp only [ha, ne_eq, not_true_eq_false, ite_false]
            exact resolveFromVault_logs_eq envKeyPath vaultId f1 f2 hf
        | some b =>
            by_cases hb : b = ""
            · simp only [ha, hb, ne_eq, not_true_eq_false, ite_false]
              exact resolveFromVault_logs_eq envKeyPath vaultId f1 f2 hf
            · simp [envTruthy, ha, hb] at hk
      · cases k2 with
        | none => simp [envTruthy, ha] at hk
        | some b =>
            by_cases hb : b = ""
            · simp [envTruthy, ha, hb] at hk
            · simp [ha, hb]

/-- Witness for C7: two runs resolving different env-provided keys, and two
runs fetching different vault values of valid shape, produce identical log
streams. -/
theorem resolve_buyer_key_logs_independent_of_key_witness :
    (resolveBuyerKey (some "0xaaaa") none "vault-1"
        (fun _ => ⟨none, some "0x01"⟩)).2 =
      (resolveBuyerKey (some "0xbbbb") none "vault-1"
        (fun _ => ⟨none, some "0x02"⟩)).2 :=
  resolve_buyer_key_logs_independent_of_key (some "0xaaaa") (some "0xbbbb")
    none "vault-1" (fun _ => ⟨none, some "0x01"⟩) (fun _ => ⟨none, some "0x02"⟩)
    (by decide) (by intro p; rfl)

/-- C9: the `encode_token_transfer` tool returns a calldata-bearing ok
result only when the chain has a token registry, the token symbol is
registered there, the recipient passes the address check and the amount
parses (and encodes) at the decimals of the token; on any unknown chain, unknown
token, invalid recipient or unparsable amount it returns `status:"error"`
and produces no calldata. -/
theorem encode_token_transfer_safety (isAddr : String → Bool)
    (parseUnitsFn : String → Nat → Except String Int)
    (encodeData : String → Int → Except String String)
    (token toAddr amount chain : String) :
    ((encode_token_transfer_execute isAddr parseUnitsFn encodeData
        token toAddr amount chain).status = "ok" →
      ∃ chainTokens tokenInfo w,
        KNOWN_TOKENS.lookup chain = some chainTokens ∧
        chainTokens.lookup (toLowerStr token) = some tokenInfo ∧
        isAddr toAddr = true ∧
        parseUnitsFn amount tokenInfo.decimals = .ok w ∧
        (encode_token_transfer_execute isAddr parseUnitsFn encodeData
          token toAddr amount chain).calldata.isSome) ∧
    ((encode_token_transfer_execute isAddr parseUnitsFn encodeData
        token toAddr amount chain).status ≠ "ok" →
      (encode_token_transfer_execute isAddr parseUnitsFn encodeData
        token toAddr amount chain).status = "error" ∧
      (encode_token_transfer_execute isAddr parseUnitsFn encodeData
        token toAddr amount chain).calldata = none) := by
  cases hc : KNOWN_TOKENS.lookup chain with
  | none => simp [encode_token_transfer_execute, hc]
  | some chainTokens =>
      cases ht : chainTokens.lookup (toLowerStr token) with
      | none => simp [encode_token_transfer_execute, hc, ht]
      | some tokenInfo =>
          cases ha : isAddr toAddr with
          | false => simp [encode_token_transfer_execute, hc, ht, ha]
          | true =>
              cases hp : parseUnitsFn amount tokenInfo.decimals with
              | error e =>
                  simp [encode_token_transfer_execute, hc, ht, ha, hp, Except.bind]
              | ok w =>
                  cases he : encodeData toAddr w with
                  | error e2 =>
                      simp [encode_token_transfer_execute, hc, ht, ha, hp, he,
                        Except.bind]
                  | ok d =>
                      have hok : (encode_token_transfer_execute isAddr parseUnitsFn
                          encodeData token toAddr amount chain).status = "ok" := by
                        simp [encode_token_transfer_execute, hc, ht, ha, hp, he,
                          Except.bind]
                      have hcd : (encode_token_transfer_execute isAddr parseUnitsFn
                          encodeData token toAddr amount chain).calldata.isSome := by
                        simp [encode_token_transfer_execute, hc, ht, ha, hp, he,
                          Except.bind]
                      exact ⟨fun _ => ⟨chainTokens, tokenInfo, w, rfl, ht, rfl, hp, hcd⟩,
                        fun hne => absurd hok hne⟩

/-- Witness for C9: encoding 10 USDC on base to the burn address succeeds,
so all four preconditions hold and calldata is produced. -/
theorem encode_token_transfer_safety_witness :
    ∃ chainTokens tokenInfo w,
      KNOWN_TOKENS.lookup "base" = some chainTokens ∧
      chainTokens.lookup (toLowerStr "USDC") = some tokenInfo ∧
      burnAddrOnly "0x000000000000000000000000000000000000dEaD" = true ∧
      tenUsdcUnits "10" tokenInfo.decimals = .ok w ∧
      (encode_token_transfer_execute burnAddrOnly tenUsdcUnits transferCalldata
        "USDC" "0x000000000000000000000000000000000000dEaD" "10" "base").calldata.isSome :=
  (encode_token_transfer_safety burnAddrOnly tenUsdcUnits transferCalldata
    "USDC" "0x000000000000000000000000000000000000dEaD" "10" "base").1 (by decide)

end OneClaw
